import Mathlib

/-!
# Verification of the 0-0 first-half match monitor bot

A shallow embedding, in Lean 4, of the core logic of `src/bot.py`:

* the JSON value model used by the dynamically-typed Python code (`JValue`),
  together with helpers mirroring Python semantics (truthiness, `dict.get`,
  `==` against integers, substring tests, hashability of set elements);
* the match classifier `MatchMonitor.is_match_0_0_first_half`;
* the league filter `MatchMonitor.is_league_monitored` and
  `MatchMonitor.get_league_info_from_match`;
* the fetch helper `_fetch_sofascore_json` and `SofaScoreAPI.get_live_matches`,
  with the HTTP network and the JSON string parser supplied as oracles;
* the per-cycle notification loop of `MatchMonitor.check_matches`, the
  sent-matches persistence (`save_json_file` of `list(self.sent_matches)`) and
  the reload performed by `MatchMonitor.__init__`.

Modelling conventions:
* JSON numbers are modelled as integers (the upstream feed delivers integral
  scores, ids, status codes and epoch timestamps); wall-clock time
  (`datetime.now().timestamp()`) is modelled as an explicit integer `now`
  parameter, in seconds.
* A Python exception caught by an enclosing `try/except` is modelled as
  `Except.error ()` (or `Option.none`), which each top-level function folds
  into the value the `except` branch produces (`False`, `None`, `[]`, or
  "continue" as appropriate).
* A Python `set` of already-notified ids is modelled as a `List PyKey` kept
  duplicate-free by a guarded insert; `PyKey` quotients Python hashable values
  by Python `==`/`hash` (so `True` collapses onto `1`), and unhashable values
  (lists/dicts) have no `PyKey`, mirroring the `TypeError` a membership test
  would raise on them.
-/

/-- A JSON value, as produced by `json.load`.  Numbers are modelled as
integers (see the header comment). -/
inductive JValue where
  | null
  | bool (b : Bool)
  | num (n : Int)
  | str (s : String)
  | arr (xs : List JValue)
  | obj (fs : List (String × JValue))

/-- First-match association lookup on the field list of a JSON object,
mirroring Python `dict` key lookup. -/
def jlookup : List (String × JValue) → String → Option JValue
  | [], _ => none
  | (k, v) :: rest, key => if k = key then some v else jlookup rest key

/-- Python `dict.get(key, default)` on a value already known to be an object:
the stored value if the key is present, else the default. -/
def jgetD (fs : List (String × JValue)) (key : String) (d : JValue) : JValue :=
  (jlookup fs key).getD d

/-- Python truthiness of a JSON value (`bool(v)`). -/
def pyTruthy : JValue → Bool
  | .null => false
  | .bool b => b
  | .num n => n != 0
  | .str s => s != ""
  | .arr xs => !xs.isEmpty
  | .obj fs => !fs.isEmpty

/-- Python `v == n` for an integer literal `n`: true only for the number `n`
itself or for the boolean of the same numeric value (`True == 1`,
`False == 0`). -/
def pyEqInt (v : JValue) (n : Int) : Bool :=
  match v with
  | .num m => m == n
  | .bool b => (if b then (1 : Int) else 0) == n
  | _ => false

/-- Python `v != 0`, the score gate test of `is_match_0_0_first_half`. -/
def pyNonzero (v : JValue) : Bool := !(pyEqInt v 0)

/-- The numeric value Python arithmetic/comparisons would use for `v`:
numbers are themselves, booleans count as 1/0, anything else raises
(`none`). -/
def pyNumVal : JValue → Option Int
  | .num n => some n
  | .bool b => some (if b then 1 else 0)
  | _ => none

/-- The key a Python `set`/`dict` stores for a hashable value, quotiented by
Python `==`/`hash` (`True` and `1` share a key).  Lists and dicts are
unhashable (`none`): a membership test on them raises `TypeError`. -/
inductive PyKey where
  | knull
  | knum (n : Int)
  | kstr (s : String)
deriving DecidableEq, Repr

/-- Hash key of a JSON value, or `none` for unhashable values. -/
def pyKeyOf : JValue → Option PyKey
  | .null => some .knull
  | .bool b => some (.knum (if b then 1 else 0))
  | .num n => some (.knum n)
  | .str s => some (.kstr s)
  | .arr _ => none
  | .obj _ => none

/-- The JSON value `json.dump` writes for a stored set element. -/
def keyToJ : PyKey → JValue
  | .knull => .null
  | .knum n => .num n
  | .kstr s => .str s

/-- Contiguous-sublist test on character lists (Python `needle in hay` for
strings). -/
def charsInfix (needle : List Char) : List Char → Bool
  | [] => needle.isEmpty
  | c :: rest => needle.isPrefixOf (c :: rest) || charsInfix needle rest

/-- Python substring containment `needle in hay`. -/
def strHasSub (hay needle : String) : Bool :=
  charsInfix needle.toList hay.toList

/-- Python `int(x / 60)` for an integral number of seconds `x`: true division
followed by truncation toward zero. -/
def pyTruncDiv60 (a : Int) : Int :=
  if 0 ≤ a then a / 60 else -((-a) / 60)

/-- Python `str.lower()` (ASCII letters, which covers every string the bot
compares). -/
def sLower (s : String) : String := ⟨s.data.map Char.toLower⟩

/-- Python `str.strip()`: drop leading and trailing whitespace. -/
def sTrim (s : String) : String :=
  ⟨((s.data.dropWhile Char.isWhitespace).reverse.dropWhile Char.isWhitespace).reverse⟩

/-- Python `str.startswith(pat)`. -/
def sStartsWith (s pat : String) : Bool := pat.data.isPrefixOf s.data

/-- Worker for `sSplitWords`: accumulate the current word (reversed) while
scanning. -/
def splitWordsAux : List Char → List Char → List String
  | [], acc => if acc.isEmpty then [] else [⟨acc.reverse⟩]
  | c :: rest, acc =>
      if c.isWhitespace then
        if acc.isEmpty then splitWordsAux rest []
        else ⟨acc.reverse⟩ :: splitWordsAux rest []
      else splitWordsAux rest (c :: acc)

/-- Python `str.split()` with no argument: split on whitespace runs,
discarding empty pieces. -/
def sSplitWords (s : String) : List String := splitWordsAux s.data []

/-- Python `' '.join(words)`. -/
def sJoinSpace : List String → String
  | [] => ""
  | [w] => w
  | w :: rest => w ++ " " ++ sJoinSpace rest

/-- Fuel-driven worker for `sReplace`; the fuel starts at the string length,
which suffices because every step consumes at least one character (the bot
only replaces the non-empty pattern `https://`). -/
def replaceFuel (pat rep : List Char) : Nat → List Char → List Char
  | 0, l => l
  | _ + 1, [] => []
  | fuel + 1, c :: rest =>
      if pat.isPrefixOf (c :: rest) && !pat.isEmpty then
        rep ++ replaceFuel pat rep fuel ((c :: rest).drop pat.length)
      else c :: replaceFuel pat rep fuel rest

/-- Python `str.replace(pat, rep)` for a non-empty pattern. -/
def sReplace (s pat rep : String) : String :=
  ⟨replaceFuel pat.data rep.data s.data.length s.data⟩

/-! ## The match classifier `MatchMonitor.is_match_0_0_first_half` -/

/-- Embeds `event = match.get('event', match)` (bot.py line 420): the wrapped event
object when an `event` key is present, else the record itself; raises
(`none`) when the record is not a dict. -/
def eventOf : JValue → Option JValue
  | .obj fs => some (jgetD fs "event" (.obj fs))
  | _ => none

/-- Score extraction (bot.py lines 423-434): from a `{current|display}`
object, the `current` value when that key is present, else the `display`
value, else 0; a bare `None` becomes 0; any other bare value is used
as-is. -/
def extractScore : JValue → JValue
  | .obj fs =>
      match jlookup fs "current" with
      | some v => v
      | none =>
          match jlookup fs "display" with
          | some v => v
          | none => .num 0
  | .null => .num 0
  | v => v

/-- Both extracted scores of an event object; `none` when the event value is
not a dict (the `.get` calls raise). -/
def scoresOfEvent : JValue → Option (JValue × JValue)
  | .obj efs =>
      some (extractScore (jgetD efs "homeScore" (.obj [])),
            extractScore (jgetD efs "awayScore" (.obj [])))
  | _ => none

/-- The pair of scores `is_match_0_0_first_half` extracts from a raw match
record, or `none` when the extraction raises. -/
def extractedScores (m : JValue) : Option (JValue × JValue) :=
  (eventOf m).bind scoresOfEvent

/-- Minute inference from `time.currentPeriodStartTimestamp` (bot.py lines
456-468): when the time object is a dict carrying a truthy timestamp,
`elapsed_minutes = int((now - start) / 60)` and the minute is
`45 + max(0, elapsed)` in the second half, else `max(0, elapsed)`;
`.error` models the `TypeError` raised by arithmetic on a truthy non-numeric
timestamp; `.ok none` means the minute stays `None` and is taken from the
status object instead. -/
def minuteFromTime (timeObj period : JValue) (now : Int) : Except Unit (Option Int) :=
  match timeObj with
  | .obj tfs =>
      match jlookup tfs "currentPeriodStartTimestamp" with
      | some ts =>
          if pyTruthy ts then
            match pyNumVal ts with
            | some t =>
                let em := pyTruncDiv60 (now - t)
                if pyEqInt period 2 then .ok (some (45 + max 0 em))
                else .ok (some (max 0 em))
            | none => .error ()
          else .ok none
      | none => .ok none
  | _ => .ok none

/-- The final test of `is_match_0_0_first_half` (bot.py line 474):
`period == 1 or (period == 0 and minute > 0 and minute <= 45)`; a non-numeric
minute makes the comparison raise, which the enclosing `except` folds to
`False`. -/
def firstHalfDecision (period minuteJ : JValue) : Bool :=
  if pyEqInt period 1 then true
  else if pyEqInt period 0 then
    match pyNumVal minuteJ with
    | some m => decide (0 < m ∧ m ≤ 45)
    | none => false
  else false

/-- The status/period/minute stage of `is_match_0_0_first_half` (bot.py lines
440-477), reached only when both scores are zero: derive the period from the
status description (`'1st half'`/`'2nd half'`) or status code (6/7), falling
back to the status `period` field (default 0); derive the minute from the
period-start timestamp, falling back to the status `minute` field
(default 0). -/
def statusTimeDecision (efs : List (String × JValue)) (now : Int) : Bool :=
  match jgetD efs "status" (.obj []) with
  | .obj sfs =>
      match jgetD sfs "description" (.str "") with
      | .str d =>
          let statusDesc := sLower d
          let statusCode := jgetD sfs "code" .null
          let period :=
            if strHasSub statusDesc "1st half" || pyEqInt statusCode 6 then JValue.num 1
            else if strHasSub statusDesc "2nd half" || pyEqInt statusCode 7 then JValue.num 2
            else jgetD sfs "period" (.num 0)
          match minuteFromTime (jgetD efs "time" (.obj [])) period now with
          | .error _ => false
          | .ok (some m) => firstHalfDecision period (.num m)
          | .ok none => firstHalfDecision period (jgetD sfs "minute" (.num 0))
      | _ => false
  | _ => false

/-- Embeds `MatchMonitor.is_match_0_0_first_half` (bot.py lines 416-480): true when
the (wrapped or direct) event is 0-0 and judged to be in its first half; any
raised exception yields `False`. -/
def is_match_0_0_first_half (m : JValue) (now : Int) : Bool :=
  match eventOf m with
  | none => false
  | some ev =>
      match scoresOfEvent ev with
      | none => false
      | some (hs, aws) =>
          if pyNonzero hs || pyNonzero aws then false
          else
            match ev with
            | .obj efs => statusTimeDecision efs now
            | _ => false

/-- A direct-format 0-0 record with a status description and a status minute,
the shape used to probe the classifier's boundary behaviour. -/
def mkStatusMatch (desc : String) (minute : Int) : JValue :=
  .obj [("homeScore", .obj [("current", .num 0)]),
        ("awayScore", .obj [("current", .num 0)]),
        ("status", .obj [("description", .str desc), ("minute", .num minute)])]

/-- Period states named by the specification's data model. -/
inductive PeriodState where
  | unknownP
  | firstHalf
  | secondHalf
  | halfTimeBreak
  | otherP
deriving DecidableEq

/-- Modelled from the spec: the qualification predicate
`isScorelessAtFirstHalfEnd` exactly as §4.2 words it — both scores zero, and
(halftime status, or `minute ≥ 45`, or first half with `minute ≥ 40`, or
second half with `minute ≤ 50`).  Used only to compare the spec's predicate
with the implemented one. -/
def spec_isScorelessAtFirstHalfEnd (scoreHome scoreAway : Int) (period : PeriodState)
    (minute : Int) (statusHalftime : Bool) : Bool :=
  if scoreHome != 0 || scoreAway != 0 then false
  else
    statusHalftime || decide (45 ≤ minute) ||
      (period == .firstHalf && decide (40 ≤ minute)) ||
      (period == .secondHalf && decide (minute ≤ 50))

/-! ## The league filter -/

/-- The Italian-to-English country alias table of `normalize_country_name`
(bot.py lines 145-162). -/
def countryAliases : List (String × String) :=
  [("italia", "italy"), ("inghilterra", "england"), ("francia", "france"),
   ("spagna", "spain"), ("germania", "germany"), ("olanda", "netherlands"),
   ("paesi bassi", "netherlands"), ("svizzera", "switzerland"),
   ("norvegia", "norway"), ("islanda", "iceland"), ("lussemburgo", "luxembourg"),
   ("qatar", "qatar"), ("singapore", "singapore"), ("vietnam", "vietnam"),
   ("estonia", "estonia"), ("hong kong", "hong kong")]

/-- Embeds the `aliases.get(name, name)` lookup. -/
def lookupAlias (table : List (String × String)) (s : String) : String :=
  match table with
  | [] => s
  | (k, v) :: rest => if k = s then v else lookupAlias rest s

/-- Embeds `normalize_country_name` (bot.py lines 140-163) applied to a JSON value:
a falsy argument yields `""`; a truthy string is stripped, lowered and run
through the alias table; `.strip()` on a truthy non-string raises. -/
def normalize_country_name (v : JValue) : Except Unit JValue :=
  if !(pyTruthy v) then .ok (.str "")
  else
    match v with
    | .str s => .ok (.str (lookupAlias countryAliases (sLower (sTrim s))))
    | _ => .error ()

/-- The replacement table of `normalize_league_name` (bot.py lines 172-177). -/
def leagueReplacements : List (String × String) :=
  [("serie a", "serie a"), ("serie b", "serie b"),
   ("liga 1", "ligue 1"), ("liga 2", "ligue 2")]

/-- Embeds `normalize_league_name` (bot.py lines 166-178) applied to a JSON value:
a falsy argument yields `""`; a truthy string is stripped, lowered,
whitespace-collapsed and run through the replacement table. -/
def normalize_league_name (v : JValue) : Except Unit JValue :=
  if !(pyTruthy v) then .ok (.str "")
  else
    match v with
    | .str s =>
        .ok (.str (lookupAlias leagueReplacements
          (sJoinSpace (sSplitWords (sLower (sTrim s))))))
    | _ => .error ()

/-- Embeds `MatchMonitor.get_monitored_tournament_ids` (bot.py lines 407-414): the
set of truthy `tournament_id` values of the monitored leagues; a non-dict
league entry or an unhashable id raises. -/
def monitoredTournamentIds : List JValue → Except Unit (List PyKey)
  | [] => .ok []
  | lg :: rest =>
      match lg with
      | .obj lfs =>
          let tid := jgetD lfs "tournament_id" .null
          if pyTruthy tid then
            match pyKeyOf tid with
            | some k => (monitoredTournamentIds rest).map (fun ks => k :: ks)
            | none => .error ()
          else monitoredTournamentIds rest
      | _ => .error ()

/-- The name-matching loop of `is_league_monitored` (bot.py lines 512-526):
for each watched league take `country_norm` (or normalize the raw country
field) and `league_norm` (or normalize the raw league field); skip entries
where either is falsy; succeed when both are substrings of the composite
"tournament name - country name" string.  The opportunistic `tournament_id`
backfill (lines 521-523) only mutates the stored configuration and never
affects the returned decision, so it is not modelled. -/
def nameLoop (fullName : String) : List JValue → Except Unit Bool
  | [] => .ok false
  | lg :: rest =>
      match lg with
      | .obj lfs =>
          let cnRes : Except Unit JValue :=
            let cnRaw := jgetD lfs "country_norm" .null
            if pyTruthy cnRaw then .ok cnRaw
            else
              normalize_country_name
                (let a := jgetD lfs "country_input" (.str "")
                 if pyTruthy a then a else jgetD lfs "country" (.str ""))
          match cnRes with
          | .error _ => .error ()
          | .ok cn =>
            let lnRes : Except Unit JValue :=
              let lnRaw := jgetD lfs "league_norm" .null
              if pyTruthy lnRaw then .ok lnRaw
              else
                normalize_league_name
                  (let a := jgetD lfs "league_input" (.str "")
                   if pyTruthy a then a else jgetD lfs "name" (.str ""))
            match lnRes with
            | .error _ => .error ()
            | .ok ln =>
              if !(pyTruthy cn) || !(pyTruthy ln) then nameLoop fullName rest
              else
                match cn with
                | .str cns =>
                    if strHasSub fullName cns then
                      match ln with
                      | .str lns =>
                          if strHasSub fullName lns then .ok true
                          else nameLoop fullName rest
                      | _ => .error ()
                    else nameLoop fullName rest
                | _ => .error ()
      | _ => .error ()

/-- Raising core of `MatchMonitor.is_league_monitored` (bot.py lines
494-529): build the lowered composite "tournament name - country name"
string, try the exact `uniqueTournament.id` membership test when that id is
truthy, then fall through to the country/league-name containment loop. -/
def ilmCore (leagues : List JValue) (m : JValue) : Except Unit Bool :=
  match m with
  | .obj mfs =>
      match jgetD mfs "tournament" (.obj []) with
      | .obj tfs =>
          match jgetD tfs "uniqueTournament" (.obj []) with
          | .obj ufs =>
              match jgetD ufs "name" (jgetD tfs "name" (.str "")) with
              | .str tn =>
                  let tournamentName := sLower tn
                  let countryRes : Except Unit String :=
                    match jgetD tfs "category" (.obj []) with
                    | .obj cfs =>
                        match jgetD cfs "name" (.str "") with
                        | .str cn => .ok (sLower cn)
                        | _ => .error ()
                    | _ => .ok ""
                  match countryRes with
                  | .error _ => .error ()
                  | .ok countryName =>
                      let fullName := sLower (tournamentName ++ " - " ++ countryName)
                      let uniqueId := jgetD ufs "id" .null
                      if pyTruthy uniqueId then
                        match monitoredTournamentIds leagues with
                        | .error _ => .error ()
                        | .ok ids =>
                            match pyKeyOf uniqueId with
                            | none => .error ()
                            | some k =>
                                if ids.contains k then .ok true
                                else nameLoop fullName leagues
                      else nameLoop fullName leagues
              | _ => .error ()
          | _ => .error ()
      | _ => .error ()
  | _ => .error ()

/-- Embeds `MatchMonitor.is_league_monitored`: the decision, with any raised
exception folded to `False` by the enclosing `except`. -/
def is_league_monitored (leagues : List JValue) (m : JValue) : Bool :=
  match ilmCore leagues m with
  | .ok b => b
  | .error _ => false

/-- Embeds `MatchMonitor.get_league_info_from_match` (bot.py lines 482-492): the
`(slug, name, tournament_id)` triple of the match's unique tournament, each
lowered; a falsy `uniqueTournament` yields empty strings; any exception
yields `(None, None, None)`. -/
def get_league_info_from_match (m : JValue) : JValue × JValue × JValue :=
  let failed : JValue × JValue × JValue := (.null, .null, .null)
  match m with
  | .obj mfs =>
      match jgetD mfs "tournament" (.obj []) with
      | .obj tfs =>
          let ut := jgetD tfs "uniqueTournament" (.obj [])
          if pyTruthy ut then
            match ut with
            | .obj ufs =>
                match jgetD ufs "slug" (.str "") with
                | .str sl =>
                    match jgetD ufs "name" (.str "") with
                    | .str nm =>
                        (.str (sLower sl), .str (sLower nm), jgetD ufs "id" .null)
                    | _ => failed
                | _ => failed
            | _ => failed
          else (.str "", .str "", .null)
      | _ => failed
  | _ => failed

/-- A raw match record whose tournament carries a slug, a tournament name and
a category (country) name, and no `uniqueTournament.id` — the family used to
study the league filter's matching strategies. -/
def mkTournMatch (slug nm ct : String) : JValue :=
  .obj [("tournament", .obj
    [("uniqueTournament", .obj [("slug", .str slug), ("name", .str nm)]),
     ("category", .obj [("name", .str ct)]),
     ("name", .str nm)])]

/-! ## The fetch layer -/

/-- An HTTP response: status code and body text.  `requests.Response.json()`
and `json.loads` are both modelled by a parser oracle applied to the text. -/
structure HttpResp where
  status : Nat
  text : String

/-- The r.jina.ai fallback URL derived from a target URL (bot.py lines
197-198). -/
def proxyUrlOf (url : String) : String :=
  "https://r.jina.ai/" ++ sReplace url "https://" "http://"

/-- Embeds `_fetch_sofascore_json` (bot.py lines 181-235), with the network (`net`)
and the JSON text parser (`parse`) as oracles: a 200 direct response is
parsed (an unparseable body yields `None`); any non-200, non-403 status
yields `None` without touching the proxy; on 403 the proxy URL is fetched,
and a 200 proxy response is unwrapped from the `{data:{content:"..."}}`
envelope when its shape and a leading `\x7b` allow it, falling back to the
wrapper itself, or to re-parsing the raw text when `.json()` raised. -/
def fetch_sofascore_json (parse : String → Option JValue) (net : String → HttpResp)
    (url : String) : Option JValue :=
  let resp := net url
  if resp.status == 200 then parse resp.text
  else if resp.status != 403 then none
  else
    let prox := net (proxyUrlOf url)
    if prox.status == 200 then
      match parse prox.text with
      | some wrapper =>
          match wrapper with
          | .obj wfs =>
              if (jlookup wfs "data").isSome then
                match jgetD wfs "data" (.obj []) with
                | .obj dfs =>
                    if (jlookup dfs "content").isSome then
                      match jgetD dfs "content" (.str "") with
                      | .str c =>
                          if sStartsWith (sTrim c) "\x7b" then
                            match parse c with
                            | some inner => some inner
                            | none => some wrapper
                          else some wrapper
                      | _ => some wrapper
                    else some wrapper
                | _ => some wrapper
              else some wrapper
          | _ => some wrapper
      | none => none
    else none

/-- The three live-event endpoints tried by `get_live_matches` (bot.py lines
288-292). -/
def liveEndpoints (base : String) : List String :=
  [base ++ "/sport/football/events/live",
   base ++ "/sport/football/events/inplay",
   base ++ "/sport/football/livescore"]

/-- The endpoint loop of `get_live_matches` (bot.py lines 294-306): first
endpoint whose fetch parses and carries a truthy `events` (or `results`)
value wins; `data.get` on a non-dict raises, which the enclosing `except`
folds to `[]`. -/
def liveLoop (parse : String → Option JValue) (net : String → HttpResp) :
    List String → JValue
  | [] => .arr []
  | url :: rest =>
      match fetch_sofascore_json parse net url with
      | none => liveLoop parse net rest
      | some data =>
          match data with
          | .obj dfs =>
              let e := jgetD dfs "events" .null
              let ev :=
                if pyTruthy e then e
                else
                  let r := jgetD dfs "results" .null
                  if pyTruthy r then r else .arr []
              if pyTruthy ev then ev else liveLoop parse net rest
          | _ => .arr []

/-- Embeds `SofaScoreAPI.get_live_matches` (bot.py lines 284-309). -/
def get_live_matches (parse : String → Option JValue) (net : String → HttpResp)
    (base : String) : JValue :=
  liveLoop parse net (liveEndpoints base)

/-! ## The notification cycle of `MatchMonitor.check_matches` -/

/-- The monitor's mutable state: the set of already-notified ids
(`self.sent_matches`, a Python set modelled as a duplicate-free list of
hashable keys) and the tracking table (`self.active_matches`). -/
structure MonState where
  sent : List PyKey
  active : List (PyKey × JValue)

/-- Embeds `match.get('event', {}).get('id')` as computed at the top of the loop
body (bot.py lines 581-582); `none` models the exception a non-dict record
or a non-dict `event` value raises, which the per-match `except` turns into
`continue`. -/
def eventWrapperId : JValue → Option JValue
  | .obj mfs =>
      match jgetD mfs "event" (.obj []) with
      | .obj efs => some (jgetD efs "id" .null)
      | _ => none
  | _ => none

/-- Whether a record carries the nested `event` wrapper with a truthy `id` —
the gate `if not event_id: continue` (bot.py lines 584-585). -/
def hasTruthyEventId (m : JValue) : Bool :=
  match eventWrapperId m with
  | some v => pyTruthy v
  | none => false

/-- The value stored into `self.active_matches[event_id]` (bot.py lines
611-615), with `datetime.now().isoformat()` modelled by the integer `now`. -/
def activeValue (idv : JValue) (m : JValue) (now : Int) : JValue :=
  .obj [("event_id", idv), ("timestamp", .num now), ("match", m)]

/-- One iteration of the `check_matches` loop body (bot.py lines 579-621) on
one raw record.  `monitored` abstracts `self.is_league_monitored` (whose
internal league-configuration backfill never touches `sent`/`active`);
`sendOk` is false when `bot.send_message` raises, in which case the
per-match `except` skips the bookkeeping.  The returned list holds the
notification attempts `(id, delivered)`.  Dict insertion order of
`active_matches` is not preserved by the model (key membership and values
are). -/
def processMatch (s : MonState) (m : JValue) (sendOk : Bool)
    (monitored : JValue → Bool) (now : Int) : MonState × List (PyKey × Bool) :=
  match eventWrapperId m with
  | none => (s, [])
  | some idv =>
      if !(pyTruthy idv) then (s, [])
      else if !(monitored m) then (s, [])
      else if !(is_match_0_0_first_half m now) then
        match pyKeyOf idv with
        | some k => ({ s with active := s.active.filter (fun p => p.1 != k) }, [])
        | none => (s, [])
      else
        match pyKeyOf idv with
        | none => (s, [])
        | some k =>
            if s.sent.contains k then (s, [])
            else if sendOk then
              ({ sent := k :: s.sent,
                 active := (k, activeValue idv m now) :: s.active.filter (fun p => p.1 != k) },
               [(k, true)])
            else (s, [(k, false)])

/-- The full loop of one `check_matches` cycle over the fetched live
records, each paired with whether its notification send would succeed. -/
def runMatches (s : MonState) (ms : List (JValue × Bool))
    (monitored : JValue → Bool) (now : Int) : MonState × List (PyKey × Bool) :=
  match ms with
  | [] => (s, [])
  | (m, ok) :: rest =>
      let r := processMatch s m ok monitored now
      let r2 := runMatches r.1 rest monitored now
      (r2.1, r.2 ++ r2.2)

/-- The JSON value `save_json_file(SENT_MATCHES_FILE, list(self.sent_matches))`
writes at the end of each cycle (bot.py line 624). -/
def sentToJson (ks : List PyKey) : JValue := .arr (ks.map keyToJ)

/-- Hash keys of a list of JSON values; `none` when any element is
unhashable (so `set(...)` raises). -/
def keysOfList : List JValue → Option (List PyKey)
  | [] => some []
  | v :: rest =>
      match pyKeyOf v with
      | some k => (keysOfList rest).map (fun ks => k :: ks)
      | none => none

/-- The sent-matches reload of `MatchMonitor.__init__` (bot.py lines
328-335): a JSON list becomes the set of its elements; a JSON object becomes
the set of its keys — which are strings; anything else becomes the empty
set. -/
def loadSent : JValue → Option (List PyKey)
  | .arr xs => keysOfList xs
  | .obj fs => some (fs.map (fun p => PyKey.kstr p.1))
  | _ => some []

/-- The string `json.dump` uses for a dict key. -/
def fileKeyStr : PyKey → String
  | .knull => "null"
  | .knum n => toString n
  | .kstr s => s

/-- The JSON value written for `self.active_matches` (bot.py line 625):
`json.dump` stringifies the keys. -/
def activeToJson (a : List (PyKey × JValue)) : JValue :=
  .obj (a.map (fun p => (fileKeyStr p.1, p.2)))

/-- The active-matches reload of `MatchMonitor.__init__` (bot.py line 337):
the keys come back as strings.  A non-dict file would leave a non-dict in
memory; the bot's own saves always write a dict, and the notification
decision never consults this table, so that corner is collapsed to `[]`. -/
def loadActive : JValue → List (PyKey × JValue)
  | .obj fs => fs.map (fun p => (PyKey.kstr p.1, p.2))
  | _ => []

/-- A process restart: the state saved by the previous cycle's
`save_json_file` calls is reloaded by `MatchMonitor.__init__`. -/
def restartState (s : MonState) : MonState :=
  { sent := (loadSent (sentToJson s.sent)).getD []
    active := loadActive (activeToJson s.active) }

/-- One step of a monitor run: a poll cycle (with its records, league
decisions and wall-clock time) or a process restart. -/
inductive RunStep where
  | poll (ms : List (JValue × Bool)) (monitored : JValue → Bool) (now : Int)
  | restart

/-- A whole run: the final state and every notification attempt made, in
order. -/
def runSteps (s : MonState) : List RunStep → MonState × List (PyKey × Bool)
  | [] => (s, [])
  | .poll ms mon now :: rest =>
      let r := runMatches s ms mon now
      let r2 := runSteps r.1 rest
      (r2.1, r.2 ++ r2.2)
  | .restart :: rest => runSteps (restartState s) rest

/-- How many notifications for id `k` were actually delivered in a list of
attempts. -/
def notifiedCount (out : List (PyKey × Bool)) (k : PyKey) : Nat :=
  out.countP (fun a => a.1 == k && a.2)

/-! ## Concrete fixtures and small auxiliary predicates -/

/-- League oracle that watches everything (monitored-league decisions are
per-record inputs to the cycle model). -/
def monAll : JValue → Bool := fun _ => true

/-- A fresh monitor state: nothing notified, nothing tracked. -/
def st0 : MonState := ⟨[], []⟩

/-- A qualifying 0-0 first-half event object with the given id. -/
def qEvent (n : Int) : JValue :=
  .obj [("id", .num n), ("homeScore", .obj [("current", .num 0)]),
        ("awayScore", .obj [("current", .num 0)]),
        ("status", .obj [("description", .str "1st half")])]

/-- The same event wrapped the way the live feed delivers it. -/
def qMatch (n : Int) : JValue := .obj [("event", qEvent n)]

/-- A 0-0 record whose only timing signal is a period-start timestamp of
epoch second 1000 — the classifier's verdict on it depends on the wall
clock. -/
def tsMatch : JValue :=
  .obj [("homeScore", .obj [("current", .num 0)]),
        ("awayScore", .obj [("current", .num 0)]),
        ("time", .obj [("currentPeriodStartTimestamp", .num 1000)])]

/-- A first-half record with a 1-0 score. -/
def scoredMatch : JValue :=
  .obj [("homeScore", .obj [("current", .num 1)]),
        ("awayScore", .obj [("current", .num 0)]),
        ("status", .obj [("description", .str "1st half")])]

/-- The sent-matches set obtained from the legacy file `["101","202"]`. -/
def legacySent : List PyKey := [.kstr "101", .kstr "202"]

/-- A watched-league entry carrying (besides the fields the bot stores) a
`slug` field equal to the observed competition's slug. -/
def watchedSlugLeague : JValue :=
  .obj [("country_norm", .str "italy"), ("league_norm", .str "serie a"),
        ("slug", .str "italy-serie-a")]

/-- A match whose competition slug is exactly `italy-serie-a` but whose
tournament/country names share no substring with the watched entry's
normalized names. -/
def slugOnlyMatch : JValue := mkTournMatch "italy-serie-a" "Campionato" "Italia"

/-- Whether a time object carries a truthy `currentPeriodStartTimestamp`. -/
def timeHasTruthyTs : JValue → Bool
  | .obj tfs =>
      match jlookup tfs "currentPeriodStartTimestamp" with
      | some v => pyTruthy v
      | none => false
  | _ => false

/-- Whether a raw record's event carries a truthy period-start timestamp —
the only channel through which the classifier reads the wall clock. -/
def recordHasTruthyTs (m : JValue) : Bool :=
  match eventOf m with
  | some (.obj efs) => timeHasTruthyTs (jgetD efs "time" (.obj []))
  | _ => false

/-- Shape test: is this JSON value an array? -/
def isArrJ : JValue → Bool
  | .arr _ => true
  | _ => false

/-- Shape test: is this JSON value an object? -/
def isObjJ : JValue → Bool
  | .obj _ => true
  | _ => false

/-- Fixture base URL for the fetch theorems. -/
def baseC : String := "https://api.sofascore.com/api/v1"

/-- The first live endpoint derived from `baseC`. -/
def urlC : String := "https://api.sofascore.com/api/v1/sport/football/events/live"

/-- The content string carried by the fixture proxy envelope. -/
def contentC : String := "\x7binner\x7d"

/-- The inner JSON the proxy envelope's content parses to. -/
def innerC : JValue := .obj [("events", .arr [.num 1])]

/-- The `{data:{content:"..."}}` proxy envelope fixture. -/
def envC : JValue := .obj [("data", .obj [("content", .str contentC)])]

/-- Parser oracle: the proxy body text parses to the envelope, the content
string parses to the inner JSON, everything else is unparseable. -/
def parseC : String → Option JValue := fun s =>
  if s = "WRAP" then some envC else if s = contentC then some innerC else none

/-- Network oracle: 403 on the direct live endpoint, 200 with envelope text
on its proxy URL, 500 elsewhere. -/
def netC : String → HttpResp := fun u =>
  if u = urlC then ⟨403, ""⟩
  else if u = proxyUrlOf urlC then ⟨200, "WRAP"⟩
  else ⟨500, ""⟩

/-! ## Helper lemmas -/

/-- A time object with no truthy period-start timestamp never yields a
minute (so the classifier never reads the clock). -/
theorem minuteFromTime_of_no_ts (t p : JValue) (n : Int)
    (h : timeHasTruthyTs t = false) : minuteFromTime t p n = .ok none := by
  cases t with
  | obj tfs =>
      simp only [timeHasTruthyTs] at h
      simp only [minuteFromTime]
      cases hl : jlookup tfs "currentPeriodStartTimestamp" with
      | none => rfl
      | some v =>
          rw [hl] at h
          have hv : pyTruthy v = false := h
          simp [hv]
  | null => rfl
  | bool b => rfl
  | num n => rfl
  | str s => rfl
  | arr xs => rfl

/-- Without a truthy period-start timestamp, the status/time stage is
independent of the wall clock. -/
theorem statusTimeDecision_time_indep (efs : List (String × JValue)) (n1 n2 : Int)
    (h : timeHasTruthyTs (jgetD efs "time" (.obj [])) = false) :
    statusTimeDecision efs n1 = statusTimeDecision efs n2 := by
  unfold statusTimeDecision
  simp only [minuteFromTime_of_no_ts _ _ _ h]

/-! ## Claims -/

/-- C2, counterexample: the claim requires the predicate to be true on a 0-0
snapshot at minute 0 of the second half (both through its general condition
`SecondHalf ∧ minute ≤ 50` and through its boundary table entry
`(0, SecondHalf, "2nd half") → true`), but `is_match_0_0_first_half` returns
false there, while the spec-side predicate returns true. -/
theorem c2_counterexample :
    is_match_0_0_first_half (mkStatusMatch "2nd half" 0) 0 = false ∧
    spec_isScorelessAtFirstHalfEnd 0 0 .secondHalf 0 false = true :=
  ⟨rfl, rfl⟩

/-- C2, amended: for 0-0 snapshots (status description plus status minute),
the predicate is true exactly when the status description marks the first
half, or the period is undetermined and `0 < minute ≤ 45`.  In particular
`(44, FirstHalf)` gives true (not false), `(45, FirstHalf)` gives true,
`(0, SecondHalf)` gives false (not true), `(51, SecondHalf)` gives false,
and a halftime status is not special-cased (at minute 0 it gives false). -/
theorem c2_amended :
    (∀ (desc : String) (minute now : Int),
      is_match_0_0_first_half (mkStatusMatch desc minute) now =
        (strHasSub (sLower desc) "1st half" ||
          (!(strHasSub (sLower desc) "2nd half") && decide (0 < minute ∧ minute ≤ 45)))) ∧
    is_match_0_0_first_half (mkStatusMatch "1st half" 44) 0 = true ∧
    is_match_0_0_first_half (mkStatusMatch "1st half" 45) 0 = true ∧
    is_match_0_0_first_half (mkStatusMatch "2nd half" 0) 0 = false ∧
    is_match_0_0_first_half (mkStatusMatch "2nd half" 51) 0 = false ∧
    is_match_0_0_first_half (mkStatusMatch "Halftime" 0) 0 = false := by
  refine ⟨?_, rfl, rfl, rfl, rfl, rfl⟩
  intro desc minute now
  have key : is_match_0_0_first_half (mkStatusMatch desc minute) now =
      firstHalfDecision
        (if strHasSub (sLower desc) "1st half" || false then JValue.num 1
         else if strHasSub (sLower desc) "2nd half" || false then JValue.num 2
         else JValue.num 0) (JValue.num minute) := rfl
  rw [key]
  cases h1 : strHasSub (sLower desc) "1st half" <;>
    cases h2 : strHasSub (sLower desc) "2nd half" <;>
      simp [h1, h2, firstHalfDecision, pyEqInt, pyNumVal]

/-- C3: whenever the extracted home or away score is non-zero (in Python's
`!= 0` sense), the classifier answers false regardless of every other field
and of the wall clock. -/
theorem c3_score_gate (m : JValue) (hs aws : JValue) (now : Int)
    (hex : extractedScores m = some (hs, aws))
    (hnz : (pyNonzero hs || pyNonzero aws) = true) :
    is_match_0_0_first_half m now = false := by
  unfold extractedScores at hex
  unfold is_match_0_0_first_half
  cases heo : eventOf m with
  | none => rw [heo] at hex
  | some ev =>
      rw [heo] at hex
      have hex2 : scoresOfEvent ev = some (hs, aws) := hex
      dsimp only
      rw [hex2]
      simp [hnz]

/-- C3 witness: a 1-0 first-half record is rejected. -/
theorem c3_score_gate_witness :
    extractedScores scoredMatch = some (.num 1, .num 0) ∧
    (pyNonzero (.num 1) || pyNonzero (.num 0)) = true ∧
    is_match_0_0_first_half scoredMatch 0 = false :=
  ⟨rfl, rfl, c3_score_gate scoredMatch (.num 1) (.num 0) 0 rfl rfl⟩

/-- C8, counterexample: the very same record is classified as a qualifying
0-0 first-half match when evaluated 10 minutes after its period-start
timestamp and rejected when evaluated 61 minutes after it, so the decision
is not a function of the record alone. -/
theorem c8_counterexample :
    is_match_0_0_first_half tsMatch 1600 = true ∧
    is_match_0_0_first_half tsMatch 4660 = false :=
  ⟨rfl, rfl⟩

/-- C8, amended: classification is a pure function of the record and the
evaluation time, and it is independent of the time whenever the record's
time object carries no truthy `currentPeriodStartTimestamp` (the only
channel through which the classifier reads the clock). -/
theorem c8_amended (m : JValue) (h : recordHasTruthyTs m = false) (n1 n2 : Int) :
    is_match_0_0_first_half m n1 = is_match_0_0_first_half m n2 := by
  unfold recordHasTruthyTs at h
  unfold is_match_0_0_first_half
  cases heo : eventOf m with
  | none => rfl
  | some ev =>
      rw [heo] at h
      cases ev with
      | obj efs =>
          dsimp only
          cases hsc : scoresOfEvent (JValue.obj efs) with
          | none => rfl
          | some pr =>
              obtain ⟨hs, aws⟩ := pr
              dsimp only
              cases hnz : (pyNonzero hs || pyNonzero aws) with
              | true => simp [hnz]
              | false => simp [hnz, statusTimeDecision_time_indep efs n1 n2 h]
      | null => rfl
      | bool b => rfl
      | num n => rfl
      | str s => rfl
      | arr xs => rfl

/-- C8 amended witness: for a record without a timestamp the decision agrees
at two different times. -/
theorem c8_amended_witness :
    recordHasTruthyTs (mkStatusMatch "1st half" 10) = false ∧
    is_match_0_0_first_half (mkStatusMatch "1st half" 10) 0
      = is_match_0_0_first_half (mkStatusMatch "1st half" 10) 999 :=
  ⟨rfl, c8_amended (mkStatusMatch "1st half" 10) rfl 0 999⟩

/-- C9, counterexample: the observed competition slug equals the watched
entry's slug (so they stand in case-insensitive containment), no exact
tournament-id match applies (no ids are configured), yet
`is_league_monitored` answers false — there is no slug-containment
strategy. -/
theorem c9_counterexample :
    (get_league_info_from_match slugOnlyMatch).1 = JValue.str "italy-serie-a" ∧
    strHasSub "italy-serie-a" "italy-serie-a" = true ∧
    monitoredTournamentIds [watchedSlugLeague] = .ok [] ∧
    is_league_monitored [watchedSlugLeague] slugOnlyMatch = false :=
  ⟨rfl, rfl, rfl, rfl⟩

/-- C9, amended: when no exact competition-id match applies (the family
below carries no `uniqueTournament.id`), the observed slug plays no role at
all, and the decision is exactly the normalized country-plus-league-name
containment loop over the composite "tournament name - country name"
string — the only strategy after the exact-id one. -/
theorem c9_amended (leagues : List JValue) (s1 s2 nm ct : String) :
    is_league_monitored leagues (mkTournMatch s1 nm ct)
        = is_league_monitored leagues (mkTournMatch s2 nm ct) ∧
    is_league_monitored leagues (mkTournMatch s1 nm ct)
        = (match nameLoop (sLower (sLower nm ++ " - " ++ sLower ct)) leagues with
           | .ok b => b
           | .error _ => false) :=
  ⟨rfl, rfl⟩

/-- C6: on a 403 from the direct endpoint, the fetch retries through the
derived proxy URL, unwraps a 200 `{data:{content:"<json>"}}` envelope whose
content string parses, and `get_live_matches` returns the inner JSON's
events list; and on any direct status other than 200 and 403 the fetch
yields `None` (the proxy branch is never reached). -/
theorem c6_fallback_transport (parse : String → Option JValue)
    (net : String → HttpResp) (base wrapText contentStr : String)
    (evs : List JValue) (inner : JValue)
    (h403 : (net (base ++ "/sport/football/events/live")).status = 403)
    (hprox : net (proxyUrlOf (base ++ "/sport/football/events/live")) = ⟨200, wrapText⟩)
    (hwrap : parse wrapText = some (.obj [("data", .obj [("content", .str contentStr)])]))
    (hbrace : sStartsWith (sTrim contentStr) "\x7b" = true)
    (hinner : parse contentStr = some inner)
    (hshape : inner = .obj [("events", .arr evs)])
    (hne : evs.isEmpty = false) :
    fetch_sofascore_json parse net (base ++ "/sport/football/events/live") = some inner ∧
    get_live_matches parse net base = .arr evs ∧
    (∀ url2, (net url2).status ≠ 200 → (net url2).status ≠ 403 →
      fetch_sofascore_json parse net url2 = none) := by
  have hfetch : fetch_sofascore_json parse net (base ++ "/sport/football/events/live")
      = some inner := by
    unfold fetch_sofascore_json
    dsimp only
    rw [h403, hprox]
    simp [hwrap, jgetD, jlookup, hbrace, hinner]
  refine ⟨hfetch, ?_, ?_⟩
  · unfold get_live_matches liveEndpoints liveLoop
    subst hshape
    simp [hfetch, jgetD, jlookup, pyTruthy, hne]
  · intro url2 h200 h403b
    simp [fetch_sofascore_json, h200, h403b]

/-- Delivered-notification counts add over concatenated attempt lists. -/
theorem notifiedCount_append (a b : List (PyKey × Bool)) (k : PyKey) :
    notifiedCount (a ++ b) k = notifiedCount a k + notifiedCount b k := by
  simp [notifiedCount, List.countP_append]

/-- One loop iteration: either the sent set is unchanged and nothing was
delivered, or one fresh id was appended and delivered. -/
theorem processMatch_shape (s : MonState) (m : JValue) (ok : Bool)
    (mon : JValue → Bool) (now : Int) :
    ((processMatch s m ok mon now).1.sent = s.sent ∧
      ∀ k, notifiedCount (processMatch s m ok mon now).2 k = 0) ∨
    (∃ kk, s.sent.contains kk = false ∧
      (processMatch s m ok mon now).1.sent = kk :: s.sent ∧
      (processMatch s m ok mon now).2 = [(kk, true)]) := by
  unfold processMatch
  cases eventWrapperId m with
  | none => left; exact ⟨rfl, fun k => rfl⟩
  | some idv =>
      dsimp only
      split
      · left; exact ⟨rfl, fun k => rfl⟩
      split
      · left; exact ⟨rfl, fun k => rfl⟩
      split
      · split
        · left; exact ⟨rfl, fun k => rfl⟩
        · left; exact ⟨rfl, fun k => rfl⟩
      · split
        · left; exact ⟨rfl, fun k => rfl⟩
        next kk hkk =>
          split
          · left; exact ⟨rfl, fun k => rfl⟩
          next hfresh =>
            split
            · right
              exact ⟨kk, by simpa using hfresh, rfl, rfl⟩
            · left
              exact ⟨rfl, fun k => by simp [notifiedCount]⟩

/-- Per-iteration invariant: the delivered count for `k` plus the "already
sent" flag never exceeds one, the flag is monotone, and a delivery raises the
flag. -/
theorem processMatch_inv (s : MonState) (m : JValue) (ok : Bool)
    (mon : JValue → Bool) (now : Int) (k : PyKey) :
    notifiedCount (processMatch s m ok mon now).2 k
        + (if s.sent.contains k then 1 else 0) ≤ 1 ∧
    (if s.sent.contains k then 1 else 0)
        ≤ (if (processMatch s m ok mon now).1.sent.contains k then 1 else 0) ∧
    notifiedCount (processMatch s m ok mon now).2 k
        ≤ (if (processMatch s m ok mon now).1.sent.contains k then 1 else 0) := by
  rcases processMatch_shape s m ok mon now with ⟨hsent, hcnt⟩ | ⟨kk, hfresh, hsent, hout⟩
  · rw [hcnt k, hsent]
    refine ⟨?_, le_refl _, Nat.zero_le _⟩
    split <;> omega
  · rw [hout, hsent]
    by_cases hkk : kk = k
    · subst hkk
      have h1 : notifiedCount [(kk, true)] kk = 1 := by simp [notifiedCount]
      have h2 : (kk :: s.sent).contains kk = true := by simp
      rw [h1, h2, hfresh]
      simp
    · have h1 : notifiedCount [(kk, true)] k = 0 := by
        simp [notifiedCount, hkk]
      have hkk2 : ¬k = kk := fun h => hkk h.symm
      have h2 : (kk :: s.sent).contains k = s.sent.contains k := by
        simp [List.contains_cons, hkk2]
      rw [h1, h2]
      refine ⟨?_, le_refl _, Nat.zero_le _⟩
      split <;> omega

/-- Whole-cycle invariant, by induction over the fetched records. -/
theorem runMatches_inv (ms : List (JValue × Bool)) (mon : JValue → Bool)
    (now : Int) : ∀ (s : MonState) (k : PyKey),
    notifiedCount (runMatches s ms mon now).2 k
        + (if s.sent.contains k then 1 else 0) ≤ 1 ∧
    (if s.sent.contains k then 1 else 0)
        ≤ (if (runMatches s ms mon now).1.sent.contains k then 1 else 0) ∧
    notifiedCount (runMatches s ms mon now).2 k
        ≤ (if (runMatches s ms mon now).1.sent.contains k then 1 else 0) := by
  induction ms with
  | nil =>
      intro s k
      simp only [runMatches, notifiedCount, List.countP_nil]
      refine ⟨?_, le_refl _, Nat.zero_le _⟩
      split <;> omega
  | cons pair rest ih =>
      intro s k
      obtain ⟨m, ok⟩ := pair
      simp only [runMatches]
      rw [notifiedCount_append]
      obtain ⟨a1, a2, a3⟩ := processMatch_inv s m ok mon now k
      obtain ⟨b1, b2, b3⟩ := ih (processMatch s m ok mon now).1 k
      exact ⟨by omega, by omega, by omega⟩

/-- Writing `json.dump` of set elements round-trips through the legacy-list reader. -/
theorem keysOfList_map_keyToJ (l : List PyKey) :
    keysOfList (l.map keyToJ) = some l := by
  induction l with
  | nil => rfl
  | cons k rest ih =>
      have hk : pyKeyOf (keyToJ k) = some k := by cases k <;> rfl
      simp [keysOfList, hk, ih]

/-- A restart reloads exactly the sent set the previous cycle persisted. -/
theorem restart_sent (s : MonState) : (restartState s).sent = s.sent := by
  simp [restartState, loadSent, sentToJson, keysOfList_map_keyToJ]

/-- Whole-run invariant over poll cycles and restarts. -/
theorem runSteps_inv (steps : List RunStep) : ∀ (s : MonState) (k : PyKey),
    notifiedCount (runSteps s steps).2 k
        + (if s.sent.contains k then 1 else 0) ≤ 1 ∧
    (if s.sent.contains k then 1 else 0)
        ≤ (if (runSteps s steps).1.sent.contains k then 1 else 0) ∧
    notifiedCount (runSteps s steps).2 k
        ≤ (if (runSteps s steps).1.sent.contains k then 1 else 0) := by
  induction steps with
  | nil =>
      intro s k
      simp only [runSteps, notifiedCount, List.countP_nil]
      refine ⟨?_, le_refl _, Nat.zero_le _⟩
      split <;> omega
  | cons st rest ih =>
      intro s k
      cases st with
      | restart =>
          have h := ih (restartState s) k
          rw [restart_sent] at h
          simpa [runSteps] using h
      | poll ms mon now =>
          simp only [runSteps]
          rw [notifiedCount_append]
          obtain ⟨a1, a2, a3⟩ := runMatches_inv ms mon now s k
          obtain ⟨b1, b2, b3⟩ := ih (runMatches s ms mon now).1 k
          exact ⟨by omega, by omega, by omega⟩

/-- C1: across any run — any interleaving of poll cycles and restarts that
reload the file the previous cycle saved — each identifier is delivered at
most once, and an identifier already in the initial sent-matches set is
never delivered at all (its flag makes the sum reach the bound on its
own). -/
theorem c1_at_most_once (s : MonState) (steps : List RunStep) (k : PyKey) :
    notifiedCount (runSteps s steps).2 k
        + (if s.sent.contains k then 1 else 0) ≤ 1 :=
  (runSteps_inv steps s k).1

/-- C6 witness: concrete oracles realizing the 403-then-proxy-envelope
scenario. -/
theorem c6_fallback_transport_witness :
    fetch_sofascore_json parseC netC urlC = some innerC ∧
    get_live_matches parseC netC baseC = .arr [.num 1] := by
  have h := c6_fallback_transport parseC netC baseC "WRAP" contentC [.num 1] innerC
    rfl rfl rfl rfl rfl rfl rfl
  exact ⟨h.1, h.2.1⟩

/-- C10: a record without a nested `event` wrapper carrying a truthy id —
including the unwrapped format the classifier itself would accept — is
skipped by the cycle loop with no state change and no notification
attempt. -/
theorem c10_unwrapped_records_skipped (s : MonState) (m : JValue) (sendOk : Bool)
    (monitored : JValue → Bool) (now : Int)
    (h : hasTruthyEventId m = false) :
    processMatch s m sendOk monitored now = (s, []) := by
  unfold hasTruthyEventId at h
  unfold processMatch
  cases he : eventWrapperId m with
  | none => rfl
  | some v =>
      rw [he] at h
      have hv : pyTruthy v = false := h
      dsimp only
      simp [hv]

/-- C10 witness: an unwrapped 0-0 first-half record (which the classifier
accepts) is nonetheless skipped by the cycle. -/
theorem c10_unwrapped_records_skipped_witness :
    hasTruthyEventId (qEvent 5) = false ∧
    is_match_0_0_first_half (qEvent 5) 0 = true ∧
    processMatch st0 (qEvent 5) true monAll 0 = (st0, []) :=
  ⟨rfl, rfl, c10_unwrapped_records_skipped st0 (qEvent 5) true monAll 0 rfl⟩

/-- C4: when the loop reaches the send for a qualifying, monitored, fresh
match and the send raises, the state is left untouched (the id is not added
to the sent set, so it stays eligible) and the rest of the cycle proceeds
exactly as if that record had not been there. -/
theorem c4_failure_isolation (s : MonState) (m idv : JValue) (k : PyKey)
    (monitored : JValue → Bool) (now : Int) (rest : List (JValue × Bool))
    (hid : eventWrapperId m = some idv)
    (htr : pyTruthy idv = true)
    (hmon : monitored m = true)
    (hq : is_match_0_0_first_half m now = true)
    (hk : pyKeyOf idv = some k)
    (hfresh : s.sent.contains k = false) :
    processMatch s m false monitored now = (s, [(k, false)]) ∧
    runMatches s ((m, false) :: rest) monitored now
      = ((runMatches s rest monitored now).1,
         (k, false) :: (runMatches s rest monitored now).2) := by
  have h1 : processMatch s m false monitored now = (s, [(k, false)]) := by
    unfold processMatch
    cases he : eventWrapperId m with
    | none => rw [he] at hid; exact absurd hid (by simp)
    | some v =>
        rw [he] at hid
        injection hid with hv
        subst hv
        dsimp only
        have hf2 : k ∉ s.sent := by simpa using hfresh
        simp [htr, hmon, hq, hk, hf2]
  refine ⟨h1, ?_⟩
  simp only [runMatches]
  rw [h1]
  simp

/-- C4 witness: the first record's send fails; the second record is still
evaluated and delivered, and the failed id is recorded as undelivered. -/
theorem c4_failure_isolation_witness :
    processMatch st0 (qMatch 1) false monAll 0 = (st0, [(.knum 1, false)]) ∧
    runMatches st0 [(qMatch 1, false), (qMatch 2, true)] monAll 0
      = ((runMatches st0 [(qMatch 2, true)] monAll 0).1,
         (.knum 1, false) :: (runMatches st0 [(qMatch 2, true)] monAll 0).2) :=
  c4_failure_isolation st0 (qMatch 1) (.num 1) (.knum 1) monAll 0
    [(qMatch 2, true)] rfl rfl rfl rfl rfl rfl

/-- C5: loading the legacy bare array `["101","202"]` yields a sent set of
the two strings; the live feed's integer id 101 is not a member of it, so
`check_matches` delivers a fresh notification for that match instead of
treating it as already notified. -/
theorem c5_legacy_ledger_not_honored :
    loadSent (JValue.arr [.str "101", .str "202"]) = some legacySent ∧
    legacySent.contains (PyKey.knum 101) = false ∧
    (processMatch ⟨legacySent, []⟩ (qMatch 101) true monAll 0).2
      = [(.knum 101, true)] :=
  ⟨rfl, rfl, rfl⟩

/-- C7, counterexample: the sent-matches value persisted at the end of a
cycle that notified match 101 is the bare array `[101]` — not the richer
keyed-object shape the claim requires. -/
theorem c7_counterexample :
    sentToJson (runMatches st0 [(qMatch 101, true)] monAll 0).1.sent
      = .arr [.num 101] ∧
    isObjJ (sentToJson (runMatches st0 [(qMatch 101, true)] monAll 0).1.sent)
      = false :=
  ⟨rfl, rfl⟩

/-- C7, amended: every persisted write of the sent-matches file is in the
historical bare array-of-ids shape (`list(self.sent_matches)`), never the
richer keyed-object shape, although the keyed-object shape is still accepted
on read. -/
theorem c7_amended (s : MonState) (fs : List (String × JValue)) :
    isArrJ (sentToJson s.sent) = true ∧
    isObjJ (sentToJson s.sent) = false ∧
    (loadSent (.obj fs)).isSome = true :=
  ⟨rfl, rfl, rfl⟩
